import Mathlib

/-!
Verification of the paintbrush locomotion and camera core.

The Rust source (src/camera.rs, src/player/movement/locomotion.rs,
src/player/movement/mod.rs) is shallowly embedded below.  `f32` values are
modelled as exact rationals (`ℚ`); Bevy's `Timer` (mode `Once`) is modelled by
its duration and clamped elapsed time; the ECS query semantics of each system
is modelled by passing the relevant components (with `Option` for optional
components and for singleton presence) explicitly.  A Bevy `single()` /
`single_mut()` call on an absent singleton panics; such a panic is modelled by
a `none` result of the system function.  The external ray-cast facility is
modelled as a function from a ray origin and a displacement vector
(`direction * max_distance`, which the source computes as
`normalize(desired - origin)` and `distance(origin, desired)` respectively)
to an optional hit point.
-/

namespace Paintbrush

/-- 3D vector with exact rational components (models glam/bevy `Vec3`). -/
structure Vec3 where
  x : ℚ
  y : ℚ
  z : ℚ
deriving DecidableEq

instance : Add Vec3 := ⟨fun a b => ⟨a.x + b.x, a.y + b.y, a.z + b.z⟩⟩

instance : Sub Vec3 := ⟨fun a b => ⟨a.x - b.x, a.y - b.y, a.z - b.z⟩⟩

/-- Scalar multiple of a vector (models `vec * scalar` / `scalar * vec`). -/
def Vec3.smul (k : ℚ) (v : Vec3) : Vec3 := ⟨k * v.x, k * v.y, k * v.z⟩

/-- The zero vector `Vec3::ZERO`. -/
def Vec3.zero : Vec3 := ⟨0, 0, 0⟩

theorem Vec3.add_def (a b : Vec3) : a + b = ⟨a.x + b.x, a.y + b.y, a.z + b.z⟩ := rfl

theorem Vec3.sub_def (a b : Vec3) : a - b = ⟨a.x - b.x, a.y - b.y, a.z - b.z⟩ := rfl

/-- Bevy `Timer` in mode `Once`: a duration and the clamped elapsed time. -/
structure Timer where
  duration : ℚ
  elapsed : ℚ
deriving DecidableEq

/-- `Timer::from_seconds(d, TimerMode::Once)`. -/
def Timer.from_seconds (d : ℚ) : Timer := ⟨d, 0⟩

/-- `Timer::tick(delta)`: advance elapsed time, clamped at the duration. -/
def Timer.tick (t : Timer) (delta : ℚ) : Timer :=
  ⟨t.duration, min (t.elapsed + delta) t.duration⟩

/-- `Timer::finished()`: the elapsed time has reached the duration. -/
def Timer.finished (t : Timer) : Bool := t.duration ≤ t.elapsed

/-- `Timer::reset()`: elapsed time back to zero. -/
def Timer.reset (t : Timer) : Timer := ⟨t.duration, 0⟩

/-- Modelled from the spec: the `Momentum` component is defined at the crate
root (not under src/); it is a scalar current forward speed, and
`has_momentum` holds iff the current speed is non-zero. -/
structure Momentum where
  speed : ℚ
deriving DecidableEq

/-- Modelled from the spec: `Momentum::get` returns the scalar speed. -/
def Momentum.get (m : Momentum) : ℚ := m.speed

/-- Modelled from the spec: `Momentum::set` overwrites the scalar speed. -/
def Momentum.set (_ : Momentum) (v : ℚ) : Momentum := ⟨v⟩

/-- Modelled from the spec: `Momentum::reset` zeroes the scalar speed. -/
def Momentum.reset (_ : Momentum) : Momentum := ⟨0⟩

/-- Modelled from the spec: "has momentum" iff current speed is non-zero. -/
def Momentum.has_momentum (m : Momentum) : Bool := m.speed ≠ 0

/-- Modelled from the spec: the `Movement` component (crate root, not under
src/) is the desired world-space direction vector; `is_moving` holds iff it
is non-zero. -/
structure Movement where
  dir : Vec3
deriving DecidableEq

/-- Modelled from the spec: "is moving" iff the movement vector is non-zero. -/
def Movement.is_moving (m : Movement) : Bool := m.dir ≠ Vec3.zero

/-- Modelled from the spec: the `Drift` component (crate root, not under src/)
is a lateral velocity vector; `has_drift` holds iff it is non-zero. -/
structure Drift where
  v : Vec3
deriving DecidableEq

/-- Modelled from the spec: "has drift" iff the drift vector is non-zero. -/
def Drift.has_drift (d : Drift) : Bool := d.v ≠ Vec3.zero

/-- Modelled from the spec: the `OutsideForce` component (crate root, not
under src/) is an external horizontal force vector. -/
structure OutsideForce where
  v : Vec3
deriving DecidableEq

/-- Rapier `Velocity`; only the linear part `linvel` is used by this core. -/
structure Velocity where
  linvel : Vec3
deriving DecidableEq

/-- Body of `apply_momentum` for one matched entity
(src/player/movement/locomotion.rs, lines 205-230): accumulate the outside
force's horizontal components, the momentum along the transform's forward
vector, and the drift; if any source was active, replace the x and z
components of the velocity with the accumulated values. -/
def apply_momentum (velocity : Velocity) (forward : Vec3) (momentum : Momentum)
    (drift : Drift) (has_force : Option OutsideForce) : Velocity :=
  let s0 : Vec3 := Vec3.zero
  let c0 : Bool := false
  let s1 : Vec3 := match has_force with
    | some f => { s0 with x := s0.x + f.v.x, z := s0.z + f.v.z }
    | none => s0
  let c1 : Bool := match has_force with
    | some _ => true
    | none => c0
  let s2 : Vec3 := if momentum.has_momentum then s1 + Vec3.smul momentum.get forward else s1
  let c2 : Bool := if momentum.has_momentum then true else c1
  let s3 : Vec3 := if drift.has_drift then s2 + drift.v else s2
  let c3 : Bool := if drift.has_drift then true else c2
  if c3 then { velocity with linvel := { velocity.linvel with x := s3.x, z := s3.z } }
  else velocity

/-- One entity as seen by `apply_momentum`'s query
`Query<(&mut Velocity, &Transform, &Momentum, &Drift, Option<&OutsideForce>),
Without<LedgeGrab>>`: `Velocity`, `Transform` (only its forward vector is
read), `Momentum` and `Drift` are required components, `OutsideForce` is
optional, and entities with `LedgeGrab` are excluded. -/
structure MomentumQueryEntity where
  velocity : Velocity
  forward : Vec3
  momentum : Momentum
  drift : Option Drift
  outside_force : Option OutsideForce
  ledge_grab : Bool
deriving DecidableEq

/-- `apply_momentum` at the query level for one entity: the body only runs if
the entity owns a `Drift` component (required by the query) and does not have
`LedgeGrab`; otherwise the entity is not matched and its velocity is
untouched. -/
def run_apply_momentum (e : MomentumQueryEntity) : Velocity :=
  match e.drift with
  | none => e.velocity
  | some d =>
    if e.ledge_grab then e.velocity
    else apply_momentum e.velocity e.forward e.momentum d e.outside_force

/-- The `PlayerSpeed` resource (src/player/movement/locomotion.rs, lines
14-25): current/top speed, the crawl floor, the accel/decel rate constants,
and the two gating timers. -/
structure PlayerSpeed where
  accel_timer : Timer
  decel_timer : Timer
  base_speed : ℚ
  crawl_speed : ℚ
  current_speed : ℚ
  base_top_speed : ℚ
  top_speed : ℚ
  acceleration : ℚ
  deceleration : ℚ
deriving DecidableEq

/-- `PlayerSpeed::reset` (lines 28-33). -/
def PlayerSpeed.reset (s : PlayerSpeed) : PlayerSpeed :=
  { s with current_speed := s.base_speed, top_speed := s.base_top_speed,
           accel_timer := s.accel_timer.reset, decel_timer := s.decel_timer.reset }

/-- `PlayerSpeed::accelerate(delta, seconds)` (lines 35-45): tick the accel
timer; once finished, move `current_speed` a fraction
`seconds * acceleration` of the remaining gap toward `top_speed`, snapping to
`top_speed` once within 0.3 of it. -/
def PlayerSpeed.accelerate (s : PlayerSpeed) (delta seconds : ℚ) : PlayerSpeed :=
  let t := s.accel_timer.tick delta
  if t.finished then
    if s.current_speed + 3/10 ≤ s.top_speed then
      { s with accel_timer := t,
               current_speed := s.current_speed
                 + (s.top_speed - s.current_speed) * (seconds * s.acceleration) }
    else
      { s with accel_timer := t, current_speed := s.top_speed }
  else
    { s with accel_timer := t }

/-- `PlayerSpeed::decelerate(delta, seconds)` (lines 47-55): tick the decel
timer; once finished, move `current_speed` a fraction
`seconds * deceleration` of the gap toward `crawl_speed`, only while at least
0.3 above the crawl floor (no snap below it). -/
def PlayerSpeed.decelerate (s : PlayerSpeed) (delta seconds : ℚ) : PlayerSpeed :=
  let t := s.decel_timer.tick delta
  if t.finished then
    if s.crawl_speed ≤ s.current_speed - 3/10 then
      { s with decel_timer := t,
               current_speed := s.current_speed
                 + (s.crawl_speed - s.current_speed) * (seconds * s.deceleration) }
    else
      { s with decel_timer := t }
  else
    { s with decel_timer := t }

/-- `PlayerSpeed::current` (lines 57-59). -/
def PlayerSpeed.current (s : PlayerSpeed) : ℚ := s.current_speed

/-- `PlayerSpeed::set` (lines 61-64). -/
def PlayerSpeed.set_speed (s : PlayerSpeed) (speed : ℚ) : PlayerSpeed :=
  { s with top_speed := speed, current_speed := speed }

/-- `Default for PlayerSpeed` (lines 67-81). -/
def PlayerSpeed.default : PlayerSpeed :=
  { accel_timer := Timer.from_seconds (3/10)
    decel_timer := Timer.from_seconds (1/2)
    base_speed := 15/2
    crawl_speed := 4
    current_speed := 15/2
    top_speed := 15
    base_top_speed := 15
    acceleration := 1
    deceleration := 2 }

/-- One accelerate or decelerate step of the Speed Model, with its frame
delta (the system passes `time.delta()` and `time.delta_seconds()`, the same
duration, for the two arguments). -/
inductive SpeedStep
  | accel (dt : ℚ)
  | decel (dt : ℚ)
deriving DecidableEq

/-- Apply one speed step to a `PlayerSpeed`. -/
def SpeedStep.apply (st : SpeedStep) (s : PlayerSpeed) : PlayerSpeed :=
  match st with
  | SpeedStep.accel dt => s.accelerate dt dt
  | SpeedStep.decel dt => s.decelerate dt dt

/-- Run a sequence of accelerate/decelerate steps on a `PlayerSpeed`. -/
def runSpeedSteps (s : PlayerSpeed) (steps : List SpeedStep) : PlayerSpeed :=
  steps.foldl (fun acc st => st.apply acc) s

/-- The per-frame inputs of `handle_player_speed` for the single player:
whether the `Grounded` component is present, whether the `Crouching`
component is present (the query excludes crouching entities via
`Without<Crouching>`), whether the Crouch action is currently pressed, the
`Movement` component, and the frame delta. -/
structure SpeedFrameInput where
  grounded : Bool
  crouching : Bool
  crouch_pressed : Bool
  movement : Movement
  dt : ℚ
deriving DecidableEq

/-- `handle_player_speed` (src/player/movement/locomotion.rs, lines 170-191)
for the single player entity: the query is
`Query<(&mut Momentum, &Movement, &ActionState<PlayerAction>),
(With<Player>, With<Grounded>, Without<Crouching>)>`, so the body only runs
when the player is grounded and does not carry the `Crouching` component.
When moving, it decelerates if the Crouch action is pressed and accelerates
otherwise, then copies `current_speed` into `Momentum`; when not moving it
resets both `Momentum` and `PlayerSpeed`. -/
def handle_player_speed (inp : SpeedFrameInput) (player_speed : PlayerSpeed)
    (momentum : Momentum) : PlayerSpeed × Momentum :=
  if inp.grounded && !inp.crouching then
    if inp.movement.is_moving then
      let speed' := if inp.crouch_pressed then player_speed.decelerate inp.dt inp.dt
                    else player_speed.accelerate inp.dt inp.dt
      (speed', momentum.set speed'.current_speed)
    else
      (player_speed.reset, momentum.reset)
  else
    (player_speed, momentum)

/-- `CameraMode` (src/camera.rs, lines 9-12). -/
inductive CameraMode
  | Normal
  | Fixed (position : Vec3) (look_target : Vec3)
deriving DecidableEq

/-- `CameraController` component (src/camera.rs, lines 13-23). -/
structure CameraController where
  z_distance : ℚ
  y_distance : ℚ
  angle : ℚ
  easing : ℚ
  target_position : Vec3
  player_position : Vec3
  mode : CameraMode
  blocked_by_a_wall : Bool
deriving DecidableEq

/-- `CameraController::desired_y_height` (lines 26-32). -/
def CameraController.desired_y_height (c : CameraController) (momentum : ℚ) : ℚ :=
  if momentum < 5 then c.y_distance / 2 else c.y_distance

/-- `CameraController::desired_z_distance` (lines 34-40). -/
def CameraController.desired_z_distance (c : CameraController) (momentum : ℚ) : ℚ :=
  if momentum < 10 then c.z_distance else c.z_distance * (3/2)

/-- `CameraController::desired_easing_speed` (lines 42-56). -/
def CameraController.desired_easing_speed (c : CameraController) : ℚ :=
  match c.mode with
  | CameraMode.Normal => if c.blocked_by_a_wall then c.easing * (5/2) else c.easing
  | CameraMode.Fixed _ _ => c.easing * 5

/-- `Default for CameraController` (lines 59-76): note the mode is the
`Fixed` pose at (0, 40, -23) looking at the origin (the `Normal` line is
commented out in the source). -/
def CameraController.default : CameraController :=
  { z_distance := 10
    y_distance := 7
    angle := 0
    easing := 4
    target_position := Vec3.zero
    player_position := Vec3.zero
    mode := CameraMode.Fixed ⟨0, 40, -23⟩ Vec3.zero
    blocked_by_a_wall := false }

/-- The slice of `ActionState<PlayerAction>` read by the camera systems. -/
structure CameraActions where
  just_pressed_camera_mode : Bool
  just_pressed_camera_left : Bool
  just_pressed_camera_right : Bool
deriving DecidableEq

/-- The angle update of `rotate_camera` (src/camera.rs, lines 176-189):
subtract 45 on a left press, add 45 on a right press, then wrap once over
+360 and once under -360. -/
def rotate_camera_angle (angle : ℚ) (left_pressed right_pressed : Bool) : ℚ :=
  let a1 := if left_pressed then angle - 45 else angle
  let a2 := if right_pressed then a1 + 45 else a1
  let a3 := if a2 > 360 then a2 - 360 else a2
  if a3 < -360 then a3 + 360 else a3

/-- Run a sequence of `rotate_camera` frames; each list element gives the
(left press, right press) pair of that frame. -/
def runRotations (angle : ℚ) (ps : List (Bool × Bool)) : ℚ :=
  ps.foldl (fun a p => rotate_camera_angle a p.1 p.2) angle

/-- `rotate_camera` system (src/camera.rs, lines 170-190) at the singleton
level: `camera_query.single_mut()` panics (`none`) when the camera is absent;
`player_query.get_single()` failing (absent player action) prints a message
and returns with the camera untouched. -/
def rotate_camera (camera : Option CameraController)
    (player_action : Option CameraActions) : Option CameraController :=
  match camera with
  | none => none
  | some cam =>
    match player_action with
    | none => some cam
    | some act =>
      some { cam with
             angle := rotate_camera_angle cam.angle
               act.just_pressed_camera_left act.just_pressed_camera_right }

/-- `debug_change_camera_mode` system (src/camera.rs, lines 89-105) at the
singleton level: `single_mut()` on an absent camera panics (`none`); an
absent player action prints a message and returns the camera untouched; a
`CameraMode` press toggles `Normal` to the canonical `Fixed` pose at
(0, 30, -20) looking at the origin, and any `Fixed` mode back to `Normal`. -/
def debug_change_camera_mode (camera : Option CameraController)
    (player_action : Option CameraActions) : Option CameraController :=
  match camera with
  | none => none
  | some cam =>
    match player_action with
    | none => some cam
    | some act =>
      if act.just_pressed_camera_mode then
        match cam.mode with
        | CameraMode.Normal =>
          some { cam with mode := CameraMode.Fixed ⟨0, 30, -20⟩ Vec3.zero }
        | CameraMode.Fixed _ _ => some { cam with mode := CameraMode.Normal }
      else some cam

/-- The external ray-cast facility (`rapier_context.cast_ray_and_get_normal`
excluding sensors and the player's own collider), abstracted as a function of
the ray origin and the displacement to the ray's end point
(`ray_dir * max_distance`, where the source computes
`ray_dir = normalize(desired - origin)` and
`max_distance = distance(origin, desired)`); it returns the hit point, if
any. -/
def RayCast : Type := Vec3 → Vec3 → Option Vec3

/-- Body of `update_camera_target_position` (src/camera.rs, lines 106-138)
once the camera and player singletons resolved.  `dir` is the normalized
forward vector of the player's transform with its rotation replaced by a pure
yaw of `camera.angle` degrees (computed by the external math library from the
angle alone, since the rotation is first reset to the identity).  The
player's position is cached, the desired position is the player position plus
`dir` scaled by the desired z distance plus the world up scaled by the
desired y height, and a ray cast from the player toward the desired position
clamps the cached target to the hit point when it hits.  No field other than
`player_position` and `target_position` is written — in particular
`blocked_by_a_wall` is never set. -/
def update_camera_target_position (cast_ray : RayCast) (camera : CameraController)
    (player_translation : Vec3) (dir : Vec3) (player_momentum : ℚ) : CameraController :=
  let cam1 := { camera with player_position := player_translation }
  let desired0 := player_translation
      + Vec3.smul (camera.desired_z_distance player_momentum) dir
      + Vec3.smul (camera.desired_y_height player_momentum) ⟨0, 1, 0⟩
  let desired := match cast_ray player_translation (desired0 - player_translation) with
    | some p => p
    | none => desired0
  { cam1 with target_position := desired }

/-- `update_camera_target_position` at the singleton level: both
`camera_query.single_mut()` and `player_query.single()` panic (`none`) when
their singleton is absent.  The player singleton carries its translation, the
yawed forward direction and its momentum scalar. -/
def update_camera_target_position_system (cast_ray : RayCast)
    (camera : Option CameraController) (player : Option (Vec3 × Vec3 × ℚ)) :
    Option CameraController :=
  match camera with
  | none => none
  | some cam =>
    match player with
    | none => none
    | some (pos, dir, mom) =>
      some (update_camera_target_position cast_ray cam pos dir mom)

/-- A concrete level geometry for the occlusion scenario: a solid wall filling
the plane z = 5, hit from the -z side.  A ray from `o` with displacement `d`
hits it iff it travels toward +z, starts before the plane and reaches it
within its length; the hit point is on the plane. -/
def wall_z5_cast : RayCast := fun o d =>
  if 0 < d.z ∧ o.z < 5 ∧ 5 ≤ o.z + d.z then
    some (o + Vec3.smul ((5 - o.z) / d.z) d)
  else none

/-! ## Helper lemmas -/

/-- `accelerate` touches only `current_speed` and the accel timer. -/
theorem accelerate_fields (s : PlayerSpeed) (dt sec : ℚ) :
    (s.accelerate dt sec).crawl_speed = s.crawl_speed
    ∧ (s.accelerate dt sec).top_speed = s.top_speed
    ∧ (s.accelerate dt sec).acceleration = s.acceleration
    ∧ (s.accelerate dt sec).deceleration = s.deceleration := by
  simp only [PlayerSpeed.accelerate]
  split_ifs <;> simp

/-- `decelerate` touches only `current_speed` and the decel timer. -/
theorem decelerate_fields (s : PlayerSpeed) (dt sec : ℚ) :
    (s.decelerate dt sec).crawl_speed = s.crawl_speed
    ∧ (s.decelerate dt sec).top_speed = s.top_speed
    ∧ (s.decelerate dt sec).acceleration = s.acceleration
    ∧ (s.decelerate dt sec).deceleration = s.deceleration := by
  simp only [PlayerSpeed.decelerate]
  split_ifs <;> simp

/-- One `accelerate` step keeps `current_speed` within
`[crawl_speed, top_speed]` provided `seconds * acceleration` lies in `[0, 1]`. -/
theorem accelerate_bounds (s : PlayerSpeed) (dt sec : ℚ)
    (hc : s.crawl_speed ≤ s.current_speed) (ht : s.current_speed ≤ s.top_speed)
    (h0 : 0 ≤ sec * s.acceleration) (h1 : sec * s.acceleration ≤ 1) :
    s.crawl_speed ≤ (s.accelerate dt sec).current_speed
    ∧ (s.accelerate dt sec).current_speed ≤ s.top_speed := by
  simp only [PlayerSpeed.accelerate]
  split_ifs with hfin hsnap
  · simp only
    constructor
    · nlinarith
    · nlinarith
  · exact ⟨hc.trans ht, le_refl _⟩
  · exact ⟨hc, ht⟩

/-- One `decelerate` step keeps `current_speed` within
`[crawl_speed, top_speed]` provided `seconds * deceleration` lies in `[0, 1]`. -/
theorem decelerate_bounds (s : PlayerSpeed) (dt sec : ℚ)
    (hc : s.crawl_speed ≤ s.current_speed) (ht : s.current_speed ≤ s.top_speed)
    (h0 : 0 ≤ sec * s.deceleration) (h1 : sec * s.deceleration ≤ 1) :
    s.crawl_speed ≤ (s.decelerate dt sec).current_speed
    ∧ (s.decelerate dt sec).current_speed ≤ s.top_speed := by
  simp only [PlayerSpeed.decelerate]
  split_ifs with hfin hfloor
  · simp only
    constructor
    · nlinarith
    · nlinarith
  · exact ⟨hc, ht⟩
  · exact ⟨hc, ht⟩

/-- Per-step delta bound under which the Speed Model cannot overshoot: the
step's delta is positive and, multiplied by the default rate constant of its
kind, does not exceed 1. -/
def SpeedStep.ok : SpeedStep → Prop
  | SpeedStep.accel dt => 0 < dt ∧ dt * PlayerSpeed.default.acceleration ≤ 1
  | SpeedStep.decel dt => 0 < dt ∧ dt * PlayerSpeed.default.deceleration ≤ 1

instance : DecidablePred SpeedStep.ok := by
  intro st
  cases st <;> simp only [SpeedStep.ok] <;> infer_instance

/-- Invariant carried along a run of speed steps from the default state. -/
def SpeedInv (s : PlayerSpeed) : Prop :=
  s.crawl_speed ≤ s.current_speed ∧ s.current_speed ≤ s.top_speed
  ∧ s.acceleration = 1 ∧ s.deceleration = 2

/-- One speed step preserves the run invariant when its delta bound holds. -/
theorem speedStep_apply_inv (st : SpeedStep) (s : PlayerSpeed)
    (hs : SpeedInv s) (hok : st.ok) : SpeedInv (st.apply s) := by
  obtain ⟨hc, ht, ha, hd⟩ := hs
  cases st with
  | accel dt =>
    obtain ⟨hpos, hbound⟩ := hok
    have hb : dt * s.acceleration ≤ 1 := by
      rw [ha]
      simpa [PlayerSpeed.default] using hbound
    have h0 : 0 ≤ dt * s.acceleration := by
      rw [ha]; linarith
    have hstep := accelerate_bounds s dt dt hc ht h0 hb
    have hfields := accelerate_fields s dt dt
    exact ⟨hfields.1 ▸ hstep.1, hfields.2.1 ▸ hstep.2,
           hfields.2.2.1.trans ha, hfields.2.2.2.trans hd⟩
  | decel dt =>
    obtain ⟨hpos, hbound⟩ := hok
    have hb : dt * s.deceleration ≤ 1 := by
      rw [hd]
      simpa [PlayerSpeed.default] using hbound
    have h0 : 0 ≤ dt * s.deceleration := by
      rw [hd]; linarith
    have hstep := decelerate_bounds s dt dt hc ht h0 hb
    have hfields := decelerate_fields s dt dt
    exact ⟨hfields.1 ▸ hstep.1, hfields.2.1 ▸ hstep.2,
           hfields.2.2.1.trans ha, hfields.2.2.2.trans hd⟩

theorem runSpeedSteps_inv : ∀ (steps : List SpeedStep) (s : PlayerSpeed),
    SpeedInv s → (∀ st ∈ steps, st.ok) → SpeedInv (runSpeedSteps s steps) := by
  intro steps
  induction steps with
  | nil => exact fun s hs _ => hs
  | cons st rest ih =>
    intro s hs hok
    have hok_head := hok st (List.mem_cons_self st rest)
    have hok_rest : ∀ x ∈ rest, SpeedStep.ok x :=
      fun x hx => hok x (List.mem_cons_of_mem st hx)
    have hstep := speedStep_apply_inv st s hs hok_head
    simpa [runSpeedSteps, List.foldl_cons] using ih (st.apply s) hstep hok_rest

/-- One `rotate_camera` frame keeps the orbit angle within [-360, 360]. -/
theorem rotate_camera_angle_mem (a : ℚ) (l r : Bool)
    (h1 : -360 ≤ a) (h2 : a ≤ 360) :
    -360 ≤ rotate_camera_angle a l r ∧ rotate_camera_angle a l r ≤ 360 := by
  simp only [rotate_camera_angle]
  cases l <;> cases r <;> simp <;> split_ifs <;> constructor <;> linarith

/-- Any sequence of `rotate_camera` frames keeps the angle in [-360, 360]. -/
theorem runRotations_mem : ∀ (ps : List (Bool × Bool)) (a : ℚ),
    -360 ≤ a → a ≤ 360 → -360 ≤ runRotations a ps ∧ runRotations a ps ≤ 360 := by
  intro ps
  induction ps with
  | nil => exact fun a h1 h2 => ⟨h1, h2⟩
  | cons p rest ih =>
    intro a h1 h2
    have h := rotate_camera_angle_mem a p.1 p.2 h1 h2
    simpa [runRotations, List.foldl_cons] using
      ih (rotate_camera_angle a p.1 p.2) h.1 h.2

/-! ## Claim theorems -/

/-- C1 counterexample: the claim quantifies over arbitrary positive frame
deltas, but a single accelerate step with a positive delta of 2 seconds from
the default state overshoots: `current_speed` becomes 22.5 while `top_speed`
is 15, so `current_speed ≤ top_speed` fails. -/
theorem C1_clamping_counterexample :
    (0 : ℚ) < 2
    ∧ ¬ ((runSpeedSteps PlayerSpeed.default [SpeedStep.accel 2]).current_speed
          ≤ (runSpeedSteps PlayerSpeed.default [SpeedStep.accel 2]).top_speed) := by
  have h1 : PlayerSpeed.default.accelerate 2 2 = { PlayerSpeed.default with
      accel_timer := ⟨3/10, 3/10⟩, current_speed := 45/2 } := by
    simp only [PlayerSpeed.accelerate, PlayerSpeed.default, Timer.tick, Timer.finished,
      Timer.from_seconds]
    norm_num
  simp only [runSpeedSteps, List.foldl_cons, List.foldl_nil, SpeedStep.apply, h1]
  norm_num [PlayerSpeed.default]

/-- C1 (amended): for every sequence of accelerate/decelerate steps from the
default state whose positive frame deltas satisfy
`delta * acceleration_rate ≤ 1` for accelerate steps and
`delta * deceleration_rate ≤ 1` for decelerate steps (at the default rates:
at most 1 s and at most 0.5 s respectively), `current_speed` never exceeds
`top_speed` and never drops below `crawl_speed`. -/
theorem C1_clamping_invariant (steps : List SpeedStep)
    (hok : ∀ st ∈ steps, st.ok) :
    (runSpeedSteps PlayerSpeed.default steps).crawl_speed
      ≤ (runSpeedSteps PlayerSpeed.default steps).current_speed
    ∧ (runSpeedSteps PlayerSpeed.default steps).current_speed
      ≤ (runSpeedSteps PlayerSpeed.default steps).top_speed := by
  have hinv : SpeedInv PlayerSpeed.default := by
    norm_num [SpeedInv, PlayerSpeed.default]
  have h := runSpeedSteps_inv steps PlayerSpeed.default hinv hok
  exact ⟨h.1, h.2.1⟩

/-- C1 witness: the amended invariant applied to the concrete two-step run
[accelerate 1 s, decelerate 0.5 s]. -/
theorem C1_clamping_invariant_witness :
    (∀ st ∈ [SpeedStep.accel 1, SpeedStep.decel (1/2)], SpeedStep.ok st)
    ∧ ((runSpeedSteps PlayerSpeed.default [SpeedStep.accel 1, SpeedStep.decel (1/2)]).crawl_speed
        ≤ (runSpeedSteps PlayerSpeed.default [SpeedStep.accel 1, SpeedStep.decel (1/2)]).current_speed
      ∧ (runSpeedSteps PlayerSpeed.default [SpeedStep.accel 1, SpeedStep.decel (1/2)]).current_speed
        ≤ (runSpeedSteps PlayerSpeed.default [SpeedStep.accel 1, SpeedStep.decel (1/2)]).top_speed) := by
  have hok : ∀ st ∈ [SpeedStep.accel 1, SpeedStep.decel (1/2)], SpeedStep.ok st := by
    intro st hst
    simp only [List.mem_cons, List.not_mem_nil, or_false] at hst
    rcases hst with h | h <;> subst h <;> constructor <;> norm_num [PlayerSpeed.default]
  exact ⟨hok, C1_clamping_invariant [SpeedStep.accel 1, SpeedStep.decel (1/2)] hok⟩

/-- C8: starting from the default orbit angle (0), any sequence of
`rotate_camera` frames (each subtracting 45 per left press and adding 45 per
right press, then wrapping) leaves the angle within [-360, 360]; and one
frame starting at 350 with only a right press yields 35. -/
theorem C8_orbit_angle_range :
    (∀ ps : List (Bool × Bool),
      -360 ≤ runRotations CameraController.default.angle ps
      ∧ runRotations CameraController.default.angle ps ≤ 360)
    ∧ rotate_camera_angle 350 false true = 35 := by
  constructor
  · intro ps
    exact runRotations_mem ps CameraController.default.angle (by norm_num [CameraController.default])
      (by norm_num [CameraController.default])
  · norm_num [rotate_camera_angle]

/-- `apply_momentum` never writes the y component of the velocity. -/
theorem apply_momentum_linvel_y (v : Velocity) (f : Vec3) (m : Momentum)
    (d : Drift) (of : Option OutsideForce) :
    (apply_momentum v f m d of).linvel.y = v.linvel.y := by
  cases of <;> simp only [apply_momentum] <;> split_ifs <;> rfl

/-- C2 (code evidence): player at the origin, the yawed forward direction
+Z, momentum 0, camera in Normal mode with z_distance 10 and y_distance 0
(so the desired position is 10 units along +Z) and a wall filling the plane
z = 5: the cached target is clamped to the hit point (0, 0, 5), but
`blocked_by_a_wall` is left false — no code path ever sets it — so the
frame's easing speed stays at the base rate instead of the 2.5-multiplied
rate the flag would select in Normal mode. -/
theorem C2_occlusion_scenario :
    let cam : CameraController :=
      { CameraController.default with y_distance := 0, mode := CameraMode.Normal }
    let r := update_camera_target_position wall_z5_cast cam Vec3.zero ⟨0, 0, 1⟩ 0
    r.target_position = ⟨0, 0, 5⟩
    ∧ r.blocked_by_a_wall = false
    ∧ r.desired_easing_speed = CameraController.default.easing
    ∧ ({ r with blocked_by_a_wall := true } : CameraController).desired_easing_speed
        = CameraController.default.easing * (5/2)
    ∧ CameraController.default.easing * (5/2) ≠ CameraController.default.easing := by
  refine ⟨?_, rfl, ?_, ?_, ?_⟩ <;>
    norm_num [update_camera_target_position, wall_z5_cast, CameraController.default,
      CameraController.desired_z_distance, CameraController.desired_y_height,
      CameraController.desired_easing_speed, Vec3.smul, Vec3.zero, Vec3.add_def,
      Vec3.sub_def]

/-- C3 counterexample: with the camera singleton present but the player
absent, `update_camera_target_position` calls `player_query.single()`, which
panics (modelled by `none`) instead of skipping its work for the frame. -/
theorem C3_missing_player_panics :
    update_camera_target_position_system wall_z5_cast
      (some CameraController.default) none = none := rfl

/-- C3 (amended): with a missing player, `rotate_camera` and
`debug_change_camera_mode` skip their work for the frame and leave the
camera untouched (graceful `get_single`), but `update_camera_target_position`
panics; and all three systems panic when the camera singleton is absent
(`single`/`single_mut`). -/
theorem C3_missing_singleton_behavior (cam : CameraController)
    (act : Option CameraActions) (cast : RayCast) (p : Option (Vec3 × Vec3 × ℚ)) :
    rotate_camera (some cam) none = some cam
    ∧ debug_change_camera_mode (some cam) none = some cam
    ∧ update_camera_target_position_system cast (some cam) none = none
    ∧ rotate_camera none act = none
    ∧ debug_change_camera_mode none act = none
    ∧ update_camera_target_position_system cast none p = none :=
  ⟨rfl, rfl, rfl, rfl, rfl, rfl⟩

/-- C4 counterexample: on a frame where the player is no longer grounded,
`handle_player_speed`'s query (`With<Grounded>`) matches nothing, so
`PlayerSpeed` is left untouched — here in a state with `current_speed`
different from `base_speed` and a non-zero accel timer, so it is not reset
to base values. -/
theorem C4_airborne_no_reset_counterexample :
    handle_player_speed ⟨false, false, false, ⟨Vec3.zero⟩, 1/2⟩
        (PlayerSpeed.default.accelerate (1/2) (1/2))
        ⟨(PlayerSpeed.default.accelerate (1/2) (1/2)).current_speed⟩
      = (PlayerSpeed.default.accelerate (1/2) (1/2),
         ⟨(PlayerSpeed.default.accelerate (1/2) (1/2)).current_speed⟩)
    ∧ (PlayerSpeed.default.accelerate (1/2) (1/2)).current_speed
        ≠ (PlayerSpeed.default.accelerate (1/2) (1/2)).base_speed
    ∧ (PlayerSpeed.default.accelerate (1/2) (1/2)).accel_timer.elapsed ≠ 0 := by
  have h1 : PlayerSpeed.default.accelerate (1/2) (1/2) = { PlayerSpeed.default with
      accel_timer := ⟨3/10, 3/10⟩, current_speed := 45/4 } := by
    simp only [PlayerSpeed.accelerate, PlayerSpeed.default, Timer.tick, Timer.finished,
      Timer.from_seconds]
    norm_num
  refine ⟨rfl, ?_, ?_⟩ <;> rw [h1] <;> norm_num [PlayerSpeed.default]

/-- C4 (amended): `handle_player_speed` resets `PlayerSpeed` (and `Momentum`)
exactly on frames where the player is grounded, does not carry the
`Crouching` component, and is not moving — and the reset does restore
`current_speed` to `base_speed`, `top_speed` to `base_top_speed` and clear
both gating timers; on frames where the player is not grounded, or carries
the `Crouching` component, the system leaves both untouched (no reset). -/
theorem C4_reset_amended (inp : SpeedFrameInput) (s : PlayerSpeed) (m : Momentum) :
    (inp.grounded = true → inp.crouching = false → inp.movement.is_moving = false →
      handle_player_speed inp s m = (s.reset, m.reset)
      ∧ s.reset.current_speed = s.base_speed
      ∧ s.reset.top_speed = s.base_top_speed
      ∧ s.reset.accel_timer.elapsed = 0
      ∧ s.reset.decel_timer.elapsed = 0)
    ∧ (inp.grounded = false → handle_player_speed inp s m = (s, m))
    ∧ (inp.crouching = true → handle_player_speed inp s m = (s, m)) := by
  refine ⟨?_, ?_, ?_⟩
  · intro hg hc hm
    refine ⟨?_, rfl, rfl, rfl, rfl⟩
    simp [handle_player_speed, hg, hc, hm]
  · intro hg
    simp [handle_player_speed, hg]
  · intro hc
    simp [handle_player_speed, hc]

/-- C4 witness: the amended reset behavior at a concrete grounded,
non-crouching, stationary frame. -/
theorem C4_reset_amended_witness :
    handle_player_speed ⟨true, false, false, ⟨Vec3.zero⟩, 1⟩ PlayerSpeed.default ⟨3⟩
      = (PlayerSpeed.default.reset, Momentum.reset ⟨3⟩) :=
  ((C4_reset_amended ⟨true, false, false, ⟨Vec3.zero⟩, 1⟩ PlayerSpeed.default ⟨3⟩).1
    rfl rfl (by simp [Movement.is_moving])).1

/-- C5 counterexample: a frame where the player is moving, grounded and
carries the `Crouching` component: the query's `Without<Crouching>` filter
excludes the player, so `handle_player_speed` freezes the speed update
entirely — while a decelerate step at the same delta would have changed
`current_speed`, so this is a freeze, not the decelerate path. -/
theorem C5_crouch_component_freezes :
    handle_player_speed ⟨true, true, true, ⟨⟨0, 0, 1⟩⟩, 1/2⟩ PlayerSpeed.default ⟨0⟩
      = (PlayerSpeed.default, ⟨0⟩)
    ∧ (PlayerSpeed.default.decelerate (1/2) (1/2)).current_speed
        ≠ PlayerSpeed.default.current_speed := by
  have h2 : PlayerSpeed.default.decelerate (1/2) (1/2) = { PlayerSpeed.default with
      decel_timer := ⟨1/2, 1/2⟩, current_speed := 4 } := by
    simp only [PlayerSpeed.decelerate, PlayerSpeed.default, Timer.tick, Timer.finished,
      Timer.from_seconds]
    norm_num
  refine ⟨rfl, ?_⟩
  rw [h2]
  norm_num [PlayerSpeed.default]

/-- C5 (amended): when the player is moving, grounded, does not carry the
`Crouching` component, and holds the Crouch action, `handle_player_speed`
runs the decelerate path (not accelerate) and copies the decelerated speed
into `Momentum`; a player carrying the `Crouching` component is excluded
from the query, freezing the speed update. -/
theorem C5_crouch_press_decelerates (inp : SpeedFrameInput) (s : PlayerSpeed)
    (m : Momentum) (hg : inp.grounded = true) (hc : inp.crouching = false)
    (hp : inp.crouch_pressed = true) (hm : inp.movement.is_moving = true) :
    handle_player_speed inp s m
      = (s.decelerate inp.dt inp.dt,
         m.set (s.decelerate inp.dt inp.dt).current_speed) := by
  simp [handle_player_speed, hg, hc, hp, hm]

/-- C5 witness: the amended decelerate-path behavior at a concrete moving,
grounded, crouch-pressing frame. -/
theorem C5_crouch_press_decelerates_witness :
    handle_player_speed ⟨true, false, true, ⟨⟨0, 0, 1⟩⟩, 1/2⟩ PlayerSpeed.default ⟨0⟩
      = (PlayerSpeed.default.decelerate (1/2) (1/2),
         Momentum.set ⟨0⟩ (PlayerSpeed.default.decelerate (1/2) (1/2)).current_speed) :=
  C5_crouch_press_decelerates _ _ _ rfl rfl rfl
    (by simp [Movement.is_moving, Vec3.zero])

/-- C6: the Velocity Composer with only Momentum active (current speed 6,
forward (0,0,1)) sets velocity.x = 0 and velocity.z = 6; with Momentum and
Drift (2,0,0) both active it sets velocity.x = 2 and velocity.z = 6; with no
active source it leaves the velocity unchanged. -/
theorem C6_velocity_composer (v : Velocity) :
    (apply_momentum v ⟨0, 0, 1⟩ ⟨6⟩ ⟨Vec3.zero⟩ none).linvel = ⟨0, v.linvel.y, 6⟩
    ∧ (apply_momentum v ⟨0, 0, 1⟩ ⟨6⟩ ⟨⟨2, 0, 0⟩⟩ none).linvel = ⟨2, v.linvel.y, 6⟩
    ∧ apply_momentum v ⟨0, 0, 1⟩ ⟨0⟩ ⟨Vec3.zero⟩ none = v := by
  refine ⟨?_, ?_, ?_⟩ <;>
    norm_num [apply_momentum, Momentum.has_momentum, Momentum.get, Drift.has_drift,
      Vec3.smul, Vec3.zero, Vec3.add_def]

/-- C7: for every entity processed by the Velocity Composer only the x and z
components of the velocity are replaced — the y component is always left
unchanged — and an entity in a LedgeGrab state is excluded from the query,
so its velocity is never modified at all. -/
theorem C7_horizontal_only_and_ledge_exempt (v : Velocity) (f : Vec3)
    (m : Momentum) (d : Option Drift) (of : Option OutsideForce) (lg : Bool) :
    (run_apply_momentum ⟨v, f, m, d, of, lg⟩).linvel.y = v.linvel.y
    ∧ run_apply_momentum ⟨v, f, m, d, of, true⟩ = v := by
  constructor
  · cases d with
    | none => rfl
    | some dd =>
      cases lg with
      | true => rfl
      | false => simpa [run_apply_momentum] using apply_momentum_linvel_y v f m dd of
  · cases d with
    | none => rfl
    | some dd => rfl

/-- C9: `apply_momentum`'s query requires a `Drift` component, so an entity
without `Drift` — whatever its Momentum, OutsideForce or LedgeGrab state —
is never matched and its velocity is never modified. -/
theorem C9_drift_required (v : Velocity) (f : Vec3) (m : Momentum)
    (of : Option OutsideForce) (lg : Bool) :
    run_apply_momentum ⟨v, f, m, none, of, lg⟩ = v := rfl

/-- C10: a default-constructed CameraController starts in Fixed mode at
(0, 40, -23) looking at the origin (not Normal chase mode) with
`blocked_by_a_wall` false; and toggling from Normal always installs the
distinct Fixed pose (0, 30, -20) looking at the origin, which differs from
the startup pose, so toggling never restores the startup pose. -/
theorem C10_default_and_toggle :
    CameraController.default.mode = CameraMode.Fixed ⟨0, 40, -23⟩ Vec3.zero
    ∧ CameraController.default.blocked_by_a_wall = false
    ∧ CameraController.default.mode ≠ CameraMode.Normal
    ∧ (∀ (cam : CameraController) (act : CameraActions),
        cam.mode = CameraMode.Normal → act.just_pressed_camera_mode = true →
        debug_change_camera_mode (some cam) (some act)
          = some { cam with mode := CameraMode.Fixed ⟨0, 30, -20⟩ Vec3.zero })
    ∧ CameraMode.Fixed ⟨0, 30, -20⟩ Vec3.zero ≠ CameraController.default.mode := by
  refine ⟨rfl, rfl, ?_, ?_, ?_⟩
  · simp [CameraController.default]
  · intro cam act hm hp
    simp [debug_change_camera_mode, hm, hp]
  · simp only [CameraController.default]
    intro h
    have := CameraMode.Fixed.injEq ⟨0, 30, -20⟩ Vec3.zero ⟨0, 40, -23⟩ Vec3.zero ▸ h
    simp only [CameraMode.Fixed.injEq, Vec3.mk.injEq] at h
    norm_num at h

/-- C10 witness: toggling from Normal at a concrete camera and action. -/
theorem C10_default_and_toggle_witness :
    debug_change_camera_mode
        (some { CameraController.default with mode := CameraMode.Normal })
        (some ⟨true, false, false⟩)
      = some { CameraController.default with
               mode := CameraMode.Fixed ⟨0, 30, -20⟩ Vec3.zero } :=
  C10_default_and_toggle.2.2.2.1
    { CameraController.default with mode := CameraMode.Normal } ⟨true, false, false⟩
    rfl rfl

end Paintbrush
